import Mathlib

/-!
Verification of the AI detection service skeleton (src/ai-service/main.py)
against its natural-language specification.

The service under scrutiny is a FastAPI application whose three handlers are
placeholders: they keep no mutable state and compute their responses purely
from the request plus two sources of freshness (a random 128-bit UUID and the
current wall-clock time).  We embed each handler as a pure Lean function whose
extra arguments stand for exactly those nondeterministic inputs:

  * `detect_objects req r`   — the `/detect` handler; `r` is the 128-bit
    random value consumed by Python's `uuid.uuid4()`.
  * `analyze_stream c u`     — the `/analyze-stream` handler (no freshness).
  * `health_check now`       — the `/health` handler; `now` is the ISO string
    produced by `datetime.utcnow().isoformat()`.

Floats appearing in the source (`confidence`, `processing_time_ms`, `bbox`)
carry only literal values (the code performs no float arithmetic on them), so
they are embedded as rationals.
-/

/-- A Python-like association map used for the free-form `metadata : dict`
field of `Detection`.  Keys are strings; values are opaque strings. -/
abbrev PyDict := List (String × String)

/-- Embeds `DetectionRequest` (main.py lines 97-105): optional image URL,
optional inline base64 image, optional camera id, and a list of requested
object-class labels.  Pydantic places no constraint on `detection_types`
beyond it being a list of strings. -/
structure DetectionRequest where
  image_url : Option String
  image_base64 : Option String
  camera_id : Option String
  detection_types : List String
deriving DecidableEq, Repr

/-- The pydantic default for `detection_types` in main.py line 102. -/
def defaultDetectionTypes : List String := ["person", "vehicle", "weapon"]

/-- Embeds `Detection` (main.py lines 108-113): object type, confidence,
bounding box `[x, y, width, height]`, and free-form metadata. -/
structure Detection where
  type : String
  confidence : ℚ
  bbox : List ℚ
  metadata : PyDict
deriving DecidableEq, Repr

/-- Embeds `DetectionResponse` (main.py lines 116-121). -/
structure DetectionResponse where
  success : Bool
  detections : List Detection
  processing_time_ms : ℚ
  frame_id : Option String
deriving DecidableEq, Repr

/-- Embeds `HealthResponse` (main.py lines 90-94). -/
structure HealthResponse where
  status : String
  timestamp : String
  version : String
deriving DecidableEq, Repr

/-- The ad-hoc JSON object returned by `analyze_stream`
(main.py lines 186-190). -/
structure StreamResponse where
  success : Bool
  message : String
  camera_id : String
deriving DecidableEq, Repr

/-- Lowercase hexadecimal digit character for `n < 16`, as produced by
Python's `%x` formatting. -/
def hexChar (n : Nat) : Char :=
  if n < 10 then Char.ofNat (48 + n) else Char.ofNat (87 + n)

/-- `hexDigits w v` is the `w`-character zero-padded lowercase hexadecimal
rendering of `v`, most significant digit first — Python's `%0*x`. -/
def hexDigits : Nat → Nat → List Char
  | 0, _ => []
  | w + 1, v => hexDigits w (v / 16) ++ [hexChar (v % 16)]

/-- The integer value of a version-4 UUID built from 128 random bits `r`:
Python's `uuid.uuid4()` clears the variant bits (`0xc000 << 48`) and sets
`0x8000 << 48`, then clears the version nibble (`0xf000 << 64`) and sets
`4 << 76`. -/
def uuid4_int (r : Nat) : Nat :=
  let n := r % 2 ^ 128
  let n := (n &&& ((2 ^ 128 - 1) ^^^ (0xc000 <<< 48))) ||| (0x8000 <<< 48)
  let n := (n &&& ((2 ^ 128 - 1) ^^^ (0xf000 <<< 64))) ||| (0x4000 <<< 64)
  n

/-- `str(uuid.uuid4())` for random bits `r`: the 32 hex digits of the UUID
integer grouped 8-4-4-4-12 with hyphens. -/
def uuid4_str (r : Nat) : String :=
  let h := hexDigits 32 (uuid4_int r)
  String.mk (h.take 8 ++ '-' :: (h.drop 8).take 4 ++ '-' :: (h.drop 12).take 4
    ++ '-' :: (h.drop 16).take 4 ++ '-' :: h.drop 20)

/-- Embeds the `/detect` handler `detect_objects` (main.py lines 138-165).
The handler ignores every field of the request (it only logs them) and
unconditionally returns success with no detections, zero processing time and
a fresh UUID frame id; `r` is the 128-bit random value behind `uuid4()`. -/
def detect_objects (_req : DetectionRequest) (r : Nat) : DetectionResponse :=
  { success := true
    detections := []
    processing_time_ms := 0
    frame_id := some (uuid4_str r) }

/-- Embeds the `/analyze-stream` handler `analyze_stream`
(main.py lines 168-191).  The handler only logs its arguments (truncating
the stream URL for the log line, which does not affect the response) and
unconditionally returns the fixed placeholder message, echoing the camera
id. -/
def analyze_stream (camera_id : String) (_stream_url : String) : StreamResponse :=
  { success := true
    message := "Stream analysis not implemented yet. Coming in Slice 12."
    camera_id := camera_id }

/-- Embeds the `/health` handler `health_check` (main.py lines 128-135):
a constant status and version with the current timestamp suffixed by `Z`. -/
def health_check (now : String) : HealthResponse :=
  { status := "healthy"
    timestamp := now ++ "Z"
    version := "0.1.0" }

/-!
## Stream session manager, modelled from the spec

The repository ships no stop-stream handler: `analyze_stream` is an explicit
placeholder ("Coming in Slice 12") and no `/stop-stream` route exists in
main.py.  Claim C3 is settled against a model of the Stream Session Manager
taken from the spec (section 4.3 and section 6).
-/

/-- Modelled from the spec: the per-session lifecycle states of section 4.3
(`Starting -> Running -> Draining -> Stopped`, with `Running -> Failed` and
`Failed -> Stopped`).  The stop-stream code is missing from src/. -/
inductive SessionState where
  | Starting
  | Running
  | Draining
  | Stopped
  | Failed
deriving DecidableEq, Repr

/-- Modelled from the spec: the session manager's state maps each camera id
to the state of its session, if any.  One live session per camera id. -/
abbrev ManagerState := String → Option SessionState

/-- Modelled from the spec: the response of
`POST stop-stream-equivalent(camera_id) -> \x7bsuccess\x7d` (section 6). -/
structure StopResponse where
  success : Bool
deriving DecidableEq, Repr

/-- Modelled from the spec: `stopSession(camera id)` of section 4.3.  A
session in any non-terminal state is driven to `Stopped` (the drain of
in-flight frames completes before the transition, which the synchronous
model collapses); stopping a camera with no session or an already-stopped
session is a no-op, not an error.  Always succeeds. -/
def stopSession (st : ManagerState) (cam : String) : StopResponse × ManagerState :=
  match st cam with
  | none => ({ success := true }, st)
  | some s =>
      if s = SessionState.Stopped then ({ success := true }, st)
      else ({ success := true }, fun c => if c = cam then some SessionState.Stopped else st c)

/-- Modelled from the spec: `startSession(camera id, ...)` of section 4.3
fails with ConflictError if the camera id already has a non-terminal
session, and otherwise creates a session in `Starting`.  Included to fix the
meaning of "non-terminal" used by `stopSession`'s surrounding contract. -/
def startSession (st : ManagerState) (cam : String) :
    Except String ManagerState :=
  match st cam with
  | some s =>
      if s = SessionState.Stopped then
        Except.ok (fun c => if c = cam then some SessionState.Starting else st c)
      else Except.error "ConflictError"
  | none => Except.ok (fun c => if c = cam then some SessionState.Starting else st c)

/-!
## Call traces over the stateless handlers

The three handlers of main.py share no mutable state (no session registry,
no counters): each response is a pure function of the request and of the
per-call fresh inputs (UUID randomness, wall clock).  A trace of API calls
is therefore just a map of the handler over the call list.
-/

/-- One incoming API call to the service. -/
inductive ApiCall where
  | detect (req : DetectionRequest)
  | start (camera_id stream_url : String)
  | health
deriving DecidableEq, Repr

/-- The per-call fresh inputs: the 128-bit value behind `uuid.uuid4()` and
the wall-clock string behind `datetime.utcnow().isoformat()`. -/
structure CallEnv where
  rand : Nat
  now : String
deriving DecidableEq, Repr

/-- One outgoing API response. -/
inductive ApiResponse where
  | detectR (r : DetectionResponse)
  | streamR (r : StreamResponse)
  | healthR (r : HealthResponse)
deriving DecidableEq, Repr

/-- Dispatches one call to the corresponding handler of main.py. -/
def handleCall : ApiCall → CallEnv → ApiResponse
  | ApiCall.detect req, e => ApiResponse.detectR (detect_objects req e.rand)
  | ApiCall.start c u, _ => ApiResponse.streamR (analyze_stream c u)
  | ApiCall.health, e => ApiResponse.healthR (health_check e.now)

/-- Runs a sequence of calls against the service.  Because the handlers keep
no state, the service state type is trivial and the run is a map. -/
def runCalls (calls : List (ApiCall × CallEnv)) : List ApiResponse :=
  calls.map (fun ce => handleCall ce.1 ce.2)

/-- Runs a sequence of start-stream requests `(camera_id, stream_url)`. -/
def runStartRequests (reqs : List (String × String)) : List StreamResponse :=
  reqs.map (fun cu => analyze_stream cu.1 cu.2)

/-- Two responses agree on every field except the freshly generated ones
(`frame_id` of a detection, `timestamp` of a health check). -/
def agreeModuloFresh : ApiResponse → ApiResponse → Prop
  | ApiResponse.detectR a, ApiResponse.detectR b =>
      a.success = b.success ∧ a.detections = b.detections ∧
        a.processing_time_ms = b.processing_time_ms
  | ApiResponse.streamR a, ApiResponse.streamR b => a = b
  | ApiResponse.healthR a, ApiResponse.healthR b =>
      a.status = b.status ∧ a.version = b.version
  | _, _ => False

/-- A bounding box `[x, y, w, h]` lies inside a `fw` by `fh` frame: spec
section 8, "0 <= x, y and x+width <= frame width, y+height <= frame
height". -/
def bboxInBounds (fw fh : ℚ) : List ℚ → Prop
  | [x, y, w, h] => 0 ≤ x ∧ 0 ≤ y ∧ x + w ≤ fw ∧ y + h ≤ fh
  | _ => False

/-!
## Helper lemmas
-/

/-- `hexDigits` always renders exactly `w` characters. -/
theorem hexDigits_length (w v : Nat) : (hexDigits w v).length = w := by
  induction w generalizing v with
  | zero => rfl
  | succ w ih => simp [hexDigits, ih]

/-- A rendered UUID string is never empty (it is 36 characters long). -/
theorem uuid4_str_ne_empty (r : Nat) : uuid4_str r ≠ "" := by
  intro h
  have hd : (uuid4_str r).data = ("" : String).data := congrArg String.data h
  simp [uuid4_str, String.mk] at hd

/-- The two status strings of interest are distinct. -/
theorem healthy_ne_degraded : ("healthy" : String) ≠ "degraded" := by decide

/-!
## Claim theorems
-/

/-- Claim C1: for a single-frame detection request carrying an inline image
(whatever labels are requested — in the placeholder no objects ever match),
the detect operation returns success, an empty detections list, a
processing time that is nonnegative, and a non-empty frame id. -/
theorem C1_detect_single_frame (req : DetectionRequest) (r : Nat)
    (_h : req.image_base64.isSome = true) :
    (detect_objects req r).success = true ∧
    (detect_objects req r).detections = [] ∧
    0 ≤ (detect_objects req r).processing_time_ms ∧
    (detect_objects req r).frame_id = some (uuid4_str r) ∧
    uuid4_str r ≠ "" :=
  ⟨rfl, rfl, le_refl 0, rfl, uuid4_str_ne_empty r⟩

/-- Witness for C1: a concrete request holding a base64 1x1-pixel PNG with
detection type `person`, run with UUID randomness 0. -/
theorem C1_detect_single_frame_witness :
    (DetectionRequest.mk none (some "iVBORw0KGgoAAAANSUhEUgAAAAEAAAABCAYAAAAfFcSJAAAADUlEQVR42mNkYPhfDwAChwGA60e6kgAAAABJRU5ErkJggg==") none ["person"]).image_base64.isSome = true ∧
    ((detect_objects (DetectionRequest.mk none (some "iVBORw0KGgoAAAANSUhEUgAAAAEAAAABCAYAAAAfFcSJAAAADUlEQVR42mNkYPhfDwAChwGA60e6kgAAAABJRU5ErkJggg==") none ["person"]) 0).success = true ∧
     (detect_objects (DetectionRequest.mk none (some "iVBORw0KGgoAAAANSUhEUgAAAAEAAAABCAYAAAAfFcSJAAAADUlEQVR42mNkYPhfDwAChwGA60e6kgAAAABJRU5ErkJggg==") none ["person"]) 0).detections = [] ∧
     0 ≤ (detect_objects (DetectionRequest.mk none (some "iVBORw0KGgoAAAANSUhEUgAAAAEAAAABCAYAAAAfFcSJAAAADUlEQVR42mNkYPhfDwAChwGA60e6kgAAAABJRU5ErkJggg==") none ["person"]) 0).processing_time_ms ∧
     (detect_objects (DetectionRequest.mk none (some "iVBORw0KGgoAAAANSUhEUgAAAAEAAAABCAYAAAAfFcSJAAAADUlEQVR42mNkYPhfDwAChwGA60e6kgAAAABJRU5ErkJggg==") none ["person"]) 0).frame_id = some (uuid4_str 0) ∧
     uuid4_str 0 ≠ "") :=
  ⟨rfl, C1_detect_single_frame _ 0 rfl⟩

/-- Claim C2, counterexample: two back-to-back start-stream requests for
`cam-1` both return success — the second does not fail with ConflictError
as the claim requires. -/
theorem C2_counterexample :
    (runStartRequests [("cam-1", "rtsp://example.com/stream"),
        ("cam-1", "rtsp://example.com/stream")]).map StreamResponse.success
      = [true, true] := rfl

/-- Claim C2, amended: the code keeps no session registry, so a second
start-stream request for the same camera id succeeds with a response
identical to the first (the fixed placeholder message); no ConflictError is
ever produced. -/
theorem C2_second_start_succeeds (c u : String) :
    runStartRequests [(c, u), (c, u)] = [analyze_stream c u, analyze_stream c u] ∧
    (analyze_stream c u).success = true ∧
    (analyze_stream c u).message
      = "Stream analysis not implemented yet. Coming in Slice 12." :=
  ⟨rfl, rfl, rfl⟩

/-- Claim C3: stop-stream is idempotent in the spec model — the first stop
succeeds, a second stop for the same camera succeeds as well and leaves the
manager state unchanged (a no-op), never an error. -/
theorem C3_stop_idempotent (st : ManagerState) (cam : String) :
    (stopSession st cam).1.success = true ∧
    (stopSession (stopSession st cam).2 cam).1.success = true ∧
    (stopSession (stopSession st cam).2 cam).2 = (stopSession st cam).2 := by
  rcases h : st cam with _ | s
  · simp [stopSession, h]
  · by_cases hs : s = SessionState.Stopped <;> simp [stopSession, h, hs]

/-- Claim C4, counterexample: the health handler's status is the constant
string `healthy` — at any time, saturated or not, it never reports
`degraded`, so it does not reflect aggregate pipeline health. -/
theorem C4_counterexample :
    (health_check "2026-10-12T00:00:00").status = "healthy" ∧
    (health_check "2026-10-12T12:00:00").status = "healthy" ∧
    (health_check "2026-10-12T00:00:00").status ≠ "degraded" :=
  ⟨rfl, rfl, by decide⟩

/-- Claim C4, amended: the health operation returns a record with status,
timestamp and version fields, where status is constantly `healthy` (mere
process liveness), timestamp is the clock reading suffixed by `Z` and
version is `0.1.0`; it never reports `degraded`. -/
theorem C4_health_is_constant (now : String) :
    health_check now
      = { status := "healthy", timestamp := now ++ "Z", version := "0.1.0" } ∧
    (health_check now).status ≠ "degraded" :=
  ⟨rfl, fun h => healthy_ne_degraded h⟩

/-- Claim C5: every Detection in a detect response has its confidence in
[0, 1] — in the placeholder the detections list is always empty, so the
property holds for all returned detections. -/
theorem C5_confidence_in_unit_interval (req : DetectionRequest) (r : Nat) :
    (detect_objects req r).detections.Forall
      (fun d => 0 ≤ d.confidence ∧ d.confidence ≤ 1) :=
  trivial

/-- Claim C6: every returned bounding box lies within the frame bounds, for
any frame dimensions — in the placeholder the detections list is always
empty, so the property holds for all returned boxes. -/
theorem C6_bbox_within_frame (req : DetectionRequest) (r : Nat) (fw fh : ℚ) :
    (detect_objects req r).detections.Forall
      (fun d => bboxInBounds fw fh d.bbox) :=
  trivial

/-- Claim C7, counterexample: the detect operation accepts a request whose
detection_types list is empty, and one whose list holds duplicate labels,
returning success for both instead of rejecting them. -/
theorem C7_counterexample :
    (detect_objects (DetectionRequest.mk none (some "AA==") none []) 0).success = true ∧
    (detect_objects
      (DetectionRequest.mk none (some "AA==") none ["person", "person"]) 0).success
      = true :=
  ⟨rfl, rfl⟩

/-- Claim C7, amended: detection_types is an arbitrary list of labels with
default [person, vehicle, weapon]; the detect operation performs no
validation and accepts requests whose list is empty or holds duplicates. -/
theorem C7_no_label_validation (req : DetectionRequest) (r : Nat)
    (_h : req.detection_types = [] ∨ ¬ req.detection_types.Nodup) :
    (detect_objects req r).success = true :=
  rfl

/-- Witness for the amended C7: a request with an empty detection_types
list is accepted. -/
theorem C7_no_label_validation_witness :
    ((DetectionRequest.mk (some "http://img.example/a.png") none none []).detection_types = []
      ∨ ¬ (DetectionRequest.mk (some "http://img.example/a.png") none none []).detection_types.Nodup) ∧
    (detect_objects (DetectionRequest.mk (some "http://img.example/a.png") none none []) 7).success = true :=
  ⟨Or.inl rfl, C7_no_label_validation _ 7 (Or.inl rfl)⟩

/-- Claim C8: for every request — with or without an image, whatever the
camera id or labels — detect is total (never an error) and returns exactly
success, no detections, processing time 0, and a fresh non-None, non-empty
frame id. -/
theorem C8_detect_total (req : DetectionRequest) (r : Nat) :
    detect_objects req r
      = { success := true, detections := [], processing_time_ms := 0,
          frame_id := some (uuid4_str r) } ∧
    (detect_objects req r).frame_id ≠ none ∧
    uuid4_str r ≠ "" :=
  ⟨rfl, fun h => Option.noConfusion h, uuid4_str_ne_empty r⟩

/-- Claim C9: for every camera id and stream URL, the start-stream handler
returns success, echoes the camera id, and yields the fixed placeholder
message; it is a total function into StreamResponse, so no ConflictError or
ValidationError can be produced. -/
theorem C9_analyze_stream_canned (c u : String) :
    analyze_stream c u
      = { success := true,
          message := "Stream analysis not implemented yet. Coming in Slice 12.",
          camera_id := c } :=
  rfl

/-- Claim C10: the handlers keep no mutable state — the response to a call
in any trace is the pure handler applied to that call (independent of all
prior calls), and two runs of the same call differ at most in the freshly
generated frame_id / timestamp. -/
theorem C10_handlers_stateless (prior : List (ApiCall × CallEnv))
    (call : ApiCall) (e e' : CallEnv) :
    runCalls (prior ++ [(call, e)]) = runCalls prior ++ [handleCall call e] ∧
    agreeModuloFresh (handleCall call e) (handleCall call e') := by
  constructor
  · simp [runCalls]
  · cases call <;>
      simp [handleCall, agreeModuloFresh, detect_objects, analyze_stream, health_check]
